import Mathlib

/-!
Verification of the Call_Transcriber repository (app.py, test.py, xyz.py).

The development shallowly embeds the transcript-assembly, polling, prompt
composition, local-model invocation, report persistence and submit-handler
logic of `src/app.py` (and the dialogue builder of `src/test.py`) as
executable Lean definitions, and proves the spec claims about them.

Modelling conventions: a Python `dict.get(key, default)` access is an
`Option` field read with `Option.getD`; the CSV report store is an
`Option (List Report)` (`none` = file absent, which `pandas.read_csv`
raises on, caught and treated as an empty frame); the remote service is an
environment of call outcomes (`Except` values and a list or stream of poll
responses); `st.stop()` / an uncaught exception is `Except.error`.
-/

/-- One utterance of a completed transcription job, as consumed by
`get_transcription_result_with_speakers`: both fields are read with
`utt.get(..., default)` in the source, hence `Option`. -/
structure Utterance where
  speaker : Option String
  text : Option String
deriving DecidableEq, Repr

/-- Speaker-to-role mapping of app.py line 66:
`label = "Interviewer" if speaker == "Speaker 0" else "Interviewee"`. -/
def labelOfApp (speaker : String) : String :=
  if speaker = "Speaker 0" then "Interviewer" else "Interviewee"

/-- The label app.py uses for an utterance, after the
`utt.get('speaker', 'Speaker')` default of line 65. -/
def dialogueLabel (u : Utterance) : String :=
  labelOfApp (u.speaker.getD ("Speaker"))

/-- The paragraph app.py line 67 appends for one utterance:
`f"{label}: {utt.get('text', '')}\n\n"`. -/
def paragraphApp (u : Utterance) : String :=
  dialogueLabel u ++ ": " ++ u.text.getD ("") ++ "\n\n"

/-- The dialogue string built by app.py lines 63-67: starts from `""` and
appends one paragraph per utterance, in order. -/
def buildDialogueApp (utts : List Utterance) : String :=
  utts.foldl (fun dialogue u => dialogue ++ paragraphApp u) ("")

/-- Speaker-to-role mapping of test.py lines 54-59: `Speaker 0` maps to
`Interviewer`, `Speaker 1` to `Interviewee`, any other tag passes through. -/
def labelOfTest (speaker : String) : String :=
  if speaker = "Speaker 0" then "Interviewer"
  else if speaker = "Speaker 1" then "Interviewee"
  else speaker

/-- The paragraph test.py line 60 appends for one utterance. -/
def paragraphTest (u : Utterance) : String :=
  labelOfTest (u.speaker.getD ("Speaker")) ++ ": " ++ u.text.getD ("") ++ "\n\n"

/-- The dialogue string built by test.py lines 49-60. -/
def buildDialogueTest (utts : List Utterance) : String :=
  utts.foldl (fun dialogue u => dialogue ++ paragraphTest u) ("")

/-- One poll response body, as read by app.py lines 61-71: `data['status']`,
`data.get('utterances', [])` and, on the error branch, `data['error']`. -/
structure PollResponse where
  status : String
  utterances : Option (List Utterance)
  error : String

/-- One iteration body of the poll loop (app.py lines 62-71): `some` result
on a terminal status, `none` when the loop sleeps and polls again.  On
`completed` it returns the assembled dialogue; on `error` app.py shows
`f"Transcription error: {data['error']}"` and stops. -/
def pollStep (r : PollResponse) : Option (Except String String) :=
  if r.status = "completed" then
    some (Except.ok (buildDialogueApp (r.utterances.getD [])))
  else if r.status = "error" then
    some (Except.error ("Transcription error: " ++ r.error))
  else none

/-- The poll loop of app.py lines 58-72 run against a finite list of
successive responses: `none` means every response was non-terminal and the
loop is still running when the list is exhausted. -/
def pollList : List PollResponse → Option (Except String String)
  | [] => none
  | r :: rest =>
    match pollStep r with
    | some out => some out
    | none => pollList rest

/-- The poll loop of app.py lines 55-72 (`get_transcription_result_with_speakers`)
run against an infinite stream of responses, with explicit fuel bounding how
many responses may be consumed: `none` means the loop has not returned within
`fuel` iterations.  The loop itself has no bound; quantifying over all fuel
recovers its exact termination behaviour. -/
def get_transcription_result_with_speakers
    (resp : Nat → PollResponse) : Nat → Option (Except String String)
  | 0 => none
  | fuel + 1 =>
    match pollStep (resp 0) with
    | some out => some out
    | none => get_transcription_result_with_speakers (fun k => resp (k + 1)) fuel

/-- One row of the interview_reports.csv store, with the columns app.py
lines 216-223 writes. -/
structure Report where
  timestamp : String
  filename : String
  analysis_type : String
  transcript : String
  analysis : String
  prompt_used : String
deriving DecidableEq, Repr

/-- Report persistence of app.py lines 88-96: read the existing store
(a missing or empty file, which `pd.read_csv` raises on, becomes an empty
frame), append the one new row, and rewrite the store in full.  The store
file state is `Option (List Report)`; the function returns the rewritten
row list. -/
def save_report_to_csv (store : Option (List Report)) (report_dict : Report) :
    List Report :=
  store.getD [] ++ [report_dict]

/-- Outcome of the `subprocess.run(["ollama", ...], check=True)` call of
app.py lines 77-82: success carries stdout, failure (non-zero exit, the
`CalledProcessError`) carries stderr. -/
inductive OllamaOutcome where
  | success (stdout : String)
  | failure (stderr : String)

/-- Local model invocation of app.py lines 75-85: on success the stripped
stdout is returned; on a non-zero exit the handler returns
`f"Error calling Ollama: {e.stderr}"` instead of raising. -/
def analyze_with_ollama (o : OllamaOutcome) : String :=
  match o with
  | OllamaOutcome.success stdout => stdout.trim
  | OllamaOutcome.failure stderr => "Error calling Ollama: " ++ stderr

/-- The `prompt_map` dict of app.py lines 133-190; `none` models the
`KeyError` a lookup of any other key would raise. -/
def prompt_map (analysis_type : String) : Option String :=
  if analysis_type = "Skill Summary" then
    some ("Evaluate the interviewee\x27s performance based on the following criteria:\n\n1. Communication skills\n2. Domain knowledge\n3. Confidence and clarity\n4. Soft skills (teamwork, leadership, etc.)\n\nProvide:\n- A short summary (3-5 sentences)\n- Individual scores for each category (out of 10)\n- An overall score (out of 10)\n\nFormat:\nCommunication: X/10\nDomain Knowledge: X/10\nSoft Skills: X/10\nOverall Score: X/10\nSummary: ...")
  else if analysis_type = "Behavioral Analysis" then
    some ("Based on the transcript, perform a behavioral analysis of the interviewee.\n\nFocus on:\n- Confidence\n- Leadership\n- Adaptability\n- Problem-solving\n- Communication under pressure\n\nHighlight:\n- Behavioral strengths\n- Areas of concern or improvement\n- Specific moments in the transcript that demonstrate these traits")
  else if analysis_type = "Technical Depth" then
    some ("Evaluate the technical depth demonstrated by the interviewee in the following areas:\n\n1. Accuracy and clarity of technical explanations\n2. Ability to solve problems or describe problem-solving strategies\n3. Understanding of core technical concepts\n4. Use of examples or real-world applications\n\nProvide:\n- A brief assessment (3-5 sentences)\n- Strengths and weaknesses\n- A technical rating out of 10")
  else if analysis_type = "Extract Q&A" then
    some ("You are given the full interview transcript with speaker turns labeled as Interviewer and Interviewee.\n\nExtract every question asked by the Interviewer that relates to the job\x27s technical aspects and provide the corresponding answer from the Interviewee.\n\nIgnore any personal, HR, or non-technical questions and answers.\nOnly return the technical Q&A pairs that appear explicitly in the transcript.\n\nFormat your output exactly like this:\nQ: [Question]\nA: [Answer]\n\nDo not include anything else—no summaries, comments, or extra text.\nMake sure to cover all relevant technical questions from the transcript.")
  else none

/-- The five values the analysis-type selectbox of app.py lines 106-108
can produce. -/
def analysisTypeOptions : List String :=
  ["Skill Summary", "Behavioral Analysis", "Technical Depth", "Extract Q&A",
   "Custom Prompt"]

/-- Base-prompt selection of app.py line 194:
`custom_prompt if analysis_type == "Custom Prompt" else prompt_map[analysis_type]`. -/
def selectBasePrompt (analysis_type custom_prompt : String) : Option String :=
  if analysis_type = "Custom Prompt" then some custom_prompt
  else prompt_map analysis_type

/-- The composed prompt of app.py lines 196-204 (an f-string with a fixed
wrapper around the transcript and the base prompt). -/
def formatted_prompt (transcript_text base_prompt : String) : String :=
  "\nYou are a helpful and precise AI interview assistant.\n\n### Transcript\n"
    ++ transcript_text ++ "\n\n### Task\n" ++ base_prompt ++ "\n"

/-- The composed prompt of test.py line 115:
`full_prompt = transcript_text + "\n\n" + prompt`. -/
def full_prompt (transcript_text prompt : String) : String :=
  transcript_text ++ "\n\n" ++ prompt

/-- The three kinds of remote-service call the submit handler can make. -/
inductive RemoteCall where
  | upload
  | jobRequest
  | pollQuery
deriving DecidableEq, Repr

/-- Session-cache lookup of app.py line 119:
`uploaded_file.name in st.session_state['transcripts']` followed by the
indexed read on line 120; the cache is an association list
filename → transcript. -/
def lookupCache (cache : List (String × String)) (name : String) :
    Option String :=
  (cache.find? (fun p => p.1 == name)).map (fun p => p.2)

/-- Environment of one submit-button press of app.py lines 117-229: the
uploaded filename, the widget values, the timestamp, the outcomes the
remote service and the local model runner would produce. -/
structure SubmitInput where
  filename : String
  analysis_type : String
  custom_prompt : String
  timestamp : String
  uploadResult : Except String String
  requestResult : Except String String
  pollResponses : List PollResponse
  ollama : String → OllamaOutcome

/-- Observable outcome of one submit-button press: the session cache and
report store afterwards, the remote calls made, and either the
(transcript, analysis) pair of a completed run or the abort message. -/
structure SubmitOutcome where
  cache : List (String × String)
  store : Option (List Report)
  remoteCalls : List RemoteCall
  result : Except String (String × String)

/-- The report row app.py lines 216-223 builds. -/
def mkReport (inp : SubmitInput) (transcript_text analysis base_prompt : String) :
    Report :=
  { timestamp := inp.timestamp
    filename := inp.filename
    analysis_type := inp.analysis_type
    transcript := transcript_text
    analysis := analysis
    prompt_used := base_prompt }

/-- The tail of the submit handler once a transcript is available (app.py
lines 193-224): select the base prompt (a `KeyError` on an unknown
analysis type aborts with nothing recorded), compose the prompt, run the
model, and always persist the report row. -/
def finishSubmit (inp : SubmitInput) (cache : List (String × String))
    (calls : List RemoteCall) (store : Option (List Report))
    (transcript_text : String) : SubmitOutcome :=
  match selectBasePrompt inp.analysis_type inp.custom_prompt with
  | none =>
    { cache := cache, store := store, remoteCalls := calls
      result := Except.error ("KeyError: " ++ inp.analysis_type) }
  | some base_prompt =>
    let analysis := analyze_with_ollama
      (inp.ollama (formatted_prompt transcript_text base_prompt))
    { cache := cache
      store := some (save_report_to_csv store
        (mkReport inp transcript_text analysis base_prompt))
      remoteCalls := calls
      result := Except.ok (transcript_text, analysis) }

/-- The submit handler of app.py lines 117-229.  On a cache hit the cached
transcript is used with no remote call; otherwise upload, job request and
the poll loop run in order, each failure aborting with nothing recorded,
and a fresh transcript is inserted into the cache.  The overall `none`
means the poll loop never saw a terminal response within the supplied
list, i.e. the handler is still blocked. -/
def runSubmit (inp : SubmitInput) (cache : List (String × String))
    (store : Option (List Report)) : Option SubmitOutcome :=
  match lookupCache cache inp.filename with
  | some transcript_text => some (finishSubmit inp cache [] store transcript_text)
  | none =>
    match inp.uploadResult with
    | Except.error e =>
      some { cache := cache, store := store
             remoteCalls := [RemoteCall.upload], result := Except.error e }
    | Except.ok _ =>
      match inp.requestResult with
      | Except.error e =>
        some { cache := cache, store := store
               remoteCalls := [RemoteCall.upload, RemoteCall.jobRequest]
               result := Except.error e }
      | Except.ok _ =>
        match pollList inp.pollResponses with
        | none => none
        | some (Except.error e) =>
          some { cache := cache, store := store
                 remoteCalls := [RemoteCall.upload, RemoteCall.jobRequest,
                   RemoteCall.pollQuery]
                 result := Except.error e }
        | some (Except.ok transcript_text) =>
          some (finishSubmit inp (cache ++ [(inp.filename, transcript_text)])
            [RemoteCall.upload, RemoteCall.jobRequest, RemoteCall.pollQuery]
            store transcript_text)

/-- Concrete session cache with one cached transcript, for witnesses. -/
def wCache : List (String × String) := [("a.mp3", "T")]

/-- Concrete submit environment: cached file, custom prompt, failing
local model runner. -/
def wInp4 : SubmitInput :=
  { filename := "a.mp3"
    analysis_type := "Custom Prompt"
    custom_prompt := "Summarize the interview"
    timestamp := "2026-01-01T00:00:00"
    uploadResult := Except.ok ("u")
    requestResult := Except.ok ("j")
    pollResponses := []
    ollama := fun _ => OllamaOutcome.failure ("model not found") }

/-- Concrete submit environment: uncached file, service reports an error
job. -/
def wInp5 : SubmitInput :=
  { filename := "b.mp3"
    analysis_type := "Skill Summary"
    custom_prompt := ""
    timestamp := "2026-01-01T00:00:00"
    uploadResult := Except.ok ("u")
    requestResult := Except.ok ("j")
    pollResponses := [{ status := "error", utterances := none
                        error := "corrupt file" }]
    ollama := fun _ => OllamaOutcome.success ("fine") }

/-- Concrete session cache with one cached transcript, for the cache-hit
witness. -/
def wCache8 : List (String × String) := [("r.mp3", "S")]

/-- Concrete submit environment: cached file, fixed template, succeeding
local model runner. -/
def wInp8 : SubmitInput :=
  { filename := "r.mp3"
    analysis_type := "Skill Summary"
    custom_prompt := ""
    timestamp := "2026-01-02T00:00:00"
    uploadResult := Except.ok ("u")
    requestResult := Except.ok ("j")
    pollResponses := []
    ollama := fun _ => OllamaOutcome.success ("ok") }

/-- Concrete submit environment: uncached file, completed job carrying no
utterances field. -/
def wInp10 : SubmitInput :=
  { filename := "c.mp3"
    analysis_type := "Custom Prompt"
    custom_prompt := "Rate the interview"
    timestamp := "2026-01-03T00:00:00"
    uploadResult := Except.ok ("u")
    requestResult := Except.ok ("j")
    pollResponses := [{ status := "completed", utterances := none
                        error := "" }]
    ollama := fun _ => OllamaOutcome.success ("ok") }

/-! ## Helper lemmas -/

theorem pollStep_isSome_iff (r : PollResponse) :
    (pollStep r).isSome = true ↔
      (r.status = "completed" ∨ r.status = "error") := by
  by_cases h1 : r.status = "completed" <;> by_cases h2 : r.status = "error" <;>
    simp [pollStep, h1, h2]

theorem poll_isSome_imp (fuel : Nat) :
    ∀ resp : Nat → PollResponse,
      (get_transcription_result_with_speakers resp fuel).isSome = true →
      ∃ n, (resp n).status = "completed" ∨ (resp n).status = "error" := by
  induction fuel with
  | zero =>
    intro resp h
    simp [get_transcription_result_with_speakers] at h
  | succ m ih =>
    intro resp h
    simp only [get_transcription_result_with_speakers] at h
    cases hstep : pollStep (resp 0) with
    | some out =>
      exact ⟨0, (pollStep_isSome_iff (resp 0)).1 (by simp [hstep])⟩
    | none =>
      rw [hstep] at h
      obtain ⟨n, hn⟩ := ih _ h
      exact ⟨n + 1, hn⟩

theorem poll_terminal_isSome (n : Nat) :
    ∀ resp : Nat → PollResponse,
      ((resp n).status = "completed" ∨ (resp n).status = "error") →
      (get_transcription_result_with_speakers resp (n + 1)).isSome = true := by
  induction n with
  | zero =>
    intro resp h
    have hs : (pollStep (resp 0)).isSome = true :=
      (pollStep_isSome_iff (resp 0)).2 h
    simp only [get_transcription_result_with_speakers]
    cases hstep : pollStep (resp 0) with
    | some out => simp
    | none => rw [hstep] at hs; simp at hs
  | succ m ih =>
    intro resp h
    simp only [get_transcription_result_with_speakers]
    cases hstep : pollStep (resp 0) with
    | some out => simp
    | none => exact ih (fun k => resp (k + 1)) h

theorem buildDialogueApp_eq_join (utts : List Utterance) :
    buildDialogueApp utts = String.join (utts.map paragraphApp) := by
  simp [buildDialogueApp, String.join, List.foldl_map]

theorem buildDialogueTest_eq_join (utts : List Utterance) :
    buildDialogueTest utts = String.join (utts.map paragraphTest) := by
  simp [buildDialogueTest, String.join, List.foldl_map]

theorem finishSubmit_cache (inp : SubmitInput) (c : List (String × String))
    (calls : List RemoteCall) (s : Option (List Report)) (t : String) :
    (finishSubmit inp c calls s t).cache = c := by
  unfold finishSubmit
  cases selectBasePrompt inp.analysis_type inp.custom_prompt <;> rfl

theorem finishSubmit_store_of_error (inp : SubmitInput)
    (c : List (String × String)) (calls : List RemoteCall)
    (s : Option (List Report)) (t m : String)
    (h : (finishSubmit inp c calls s t).result = Except.error m) :
    (finishSubmit inp c calls s t).store = s := by
  unfold finishSubmit at *
  cases hb : selectBasePrompt inp.analysis_type inp.custom_prompt with
  | none => simp [hb]
  | some b => rw [hb] at h; simp at h

theorem selectBasePrompt_isSome_of_mem (analysis_type custom_prompt : String)
    (h : analysis_type ∈ analysisTypeOptions) :
    ∃ b, selectBasePrompt analysis_type custom_prompt = some b := by
  simp only [analysisTypeOptions, List.mem_cons, List.not_mem_nil,
    or_false] at h
  rcases h with h | h | h | h | h <;> subst h <;>
    simp [selectBasePrompt, prompt_map]

/-! ## Claims -/

/-- C1: the transcript built by the poller of app.py is the in-order
concatenation, one per utterance, of paragraphs of the form
`Label: text` followed by a blank line, and on the two-utterance example
`[(Speaker 0, Tell me about yourself), (Speaker 1, I am a backend engineer)]`
it is exactly the string the spec gives. -/
theorem C1_transcript_assembly :
    (∀ utts : List Utterance,
        buildDialogueApp utts = String.join (utts.map paragraphApp)) ∧
    (∀ u : Utterance,
        paragraphApp u = dialogueLabel u ++ ": " ++ u.text.getD ("") ++ "\n\n") ∧
    buildDialogueApp
        [⟨some ("Speaker 0"), some ("Tell me about yourself")⟩,
         ⟨some ("Speaker 1"), some ("I am a backend engineer")⟩] =
      "Interviewer: Tell me about yourself\n\nInterviewee: I am a backend engineer\n\n" :=
  ⟨buildDialogueApp_eq_join, fun _ => rfl, by decide⟩

/-- C2 counterexample: the claim says the first speaker tag encountered maps
to Interviewer and every other tag to Interviewee.  On the sequence
`[(Speaker 1, a), (Speaker 0, b)]` app.py labels the first-encountered tag
`Speaker 1` as Interviewee and the later tag `Speaker 0` as Interviewer,
the opposite of the claimed first-encountered rule. -/
theorem C2_counterexample :
    dialogueLabel ⟨some ("Speaker 1"), some ("a")⟩ = "Interviewee" ∧
    buildDialogueApp
        [⟨some ("Speaker 1"), some ("a")⟩, ⟨some ("Speaker 0"), some ("b")⟩] =
      "Interviewee: a\n\nInterviewer: b\n\n" ∧
    "Interviewee: a\n\nInterviewer: b\n\n" ≠
      "Interviewer: a\n\nInterviewee: b\n\n" := by
  decide

/-- C2 amended: the mapping is by fixed tag, not by order of first
encounter: the literal tag `Speaker 0` maps to Interviewer and every other
tag to Interviewee; the mapping is stable, since the label depends only on
the utterance speaker tag. -/
theorem C2_speaker_mapping_amended :
    labelOfApp ("Speaker 0") = "Interviewer" ∧
    (∀ s : String, s ≠ "Speaker 0" → labelOfApp s = "Interviewee") ∧
    (∀ u v : Utterance, u.speaker = v.speaker →
        dialogueLabel u = dialogueLabel v) :=
  ⟨rfl, fun s hs => by simp [labelOfApp, hs],
   fun u v h => by simp [dialogueLabel, h]⟩

/-- C2 amended, witness at concrete inputs. -/
theorem C2_speaker_mapping_amended_witness :
    labelOfApp ("Speaker 1") = "Interviewee" ∧
    dialogueLabel ⟨some ("Speaker 0"), some ("a")⟩ =
      dialogueLabel ⟨some ("Speaker 0"), some ("b")⟩ :=
  ⟨C2_speaker_mapping_amended.2.1 ("Speaker 1") (by decide),
   C2_speaker_mapping_amended.2.2 _ _ rfl⟩

/-- C3: appending one report to an existing store of N rows yields N+1
rows, the first N rows unchanged and the new row last. -/
theorem C3_report_append (rows : List Report) (r : Report) :
    (save_report_to_csv (some rows) r).length = rows.length + 1 ∧
    (save_report_to_csv (some rows) r).take rows.length = rows ∧
    (save_report_to_csv (some rows) r).getLast? = some r := by
  refine ⟨?_, ?_, ?_⟩ <;>
    simp [save_report_to_csv, List.take_left, List.getLast?_concat]

/-- C6: both prompt composers embed the literal transcript and the literal
base prompt as contiguous substrings of their output. -/
theorem C6_prompt_contains (transcript_text base_prompt : String) :
    (∃ a b c, formatted_prompt transcript_text base_prompt =
        a ++ transcript_text ++ b ++ base_prompt ++ c) ∧
    (∃ a b c, full_prompt transcript_text base_prompt =
        a ++ transcript_text ++ b ++ base_prompt ++ c) := by
  constructor
  · exact ⟨"\nYou are a helpful and precise AI interview assistant.\n\n### Transcript\n",
      "\n\n### Task\n", "\n", rfl⟩
  · refine ⟨"", "\n\n", "", ?_⟩
    simp [full_prompt]

/-- C9 counterexample: the two dialogue builders are not extensionally
equal: on a single utterance tagged `Speaker 2`, app.py labels it
Interviewee while test.py passes the tag through. -/
theorem C9_counterexample :
    buildDialogueApp [⟨some ("Speaker 2"), some ("hi")⟩] ≠
      buildDialogueTest [⟨some ("Speaker 2"), some ("hi")⟩] := by
  decide

/-- C9 amended: the two dialogue builders agree on every utterance list in
which each effective speaker tag is `Speaker 0` or `Speaker 1` (they
diverge exactly on other tags, which app.py buckets into Interviewee and
test.py passes through). -/
theorem C9_dialogue_equivalence_amended (utts : List Utterance)
    (h : ∀ u ∈ utts, u.speaker.getD ("Speaker") = "Speaker 0" ∨
        u.speaker.getD ("Speaker") = "Speaker 1") :
    buildDialogueApp utts = buildDialogueTest utts := by
  rw [buildDialogueApp_eq_join, buildDialogueTest_eq_join]
  congr 1
  apply List.map_congr_left
  intro u hu
  rcases h u hu with h0 | h1
  · simp [paragraphApp, paragraphTest, dialogueLabel, labelOfApp, labelOfTest, h0]
  · simp [paragraphApp, paragraphTest, dialogueLabel, labelOfApp, labelOfTest, h1]

/-- C9 amended, witness at a concrete two-speaker utterance list. -/
theorem C9_dialogue_equivalence_amended_witness :
    buildDialogueApp
        [⟨some ("Speaker 0"), some ("x")⟩, ⟨some ("Speaker 1"), some ("y")⟩] =
      buildDialogueTest
        [⟨some ("Speaker 0"), some ("x")⟩, ⟨some ("Speaker 1"), some ("y")⟩] :=
  C9_dialogue_equivalence_amended _ (by decide)

/-- C7: the poll loop, run with arbitrary fuel against a stream of status
responses, returns within some fuel bound iff some response has a terminal
status (`completed` or `error`); with no terminal response it never
returns, i.e. the caller is blocked forever. -/
theorem C7_poll_termination (resp : Nat → PollResponse) :
    (∃ fuel, (get_transcription_result_with_speakers resp fuel).isSome = true)
      ↔ ∃ n, (resp n).status = "completed" ∨ (resp n).status = "error" := by
  constructor
  · rintro ⟨fuel, h⟩
    exact poll_isSome_imp fuel resp h
  · rintro ⟨n, h⟩
    exact ⟨n + 1, poll_terminal_isSome n resp h⟩

/-- C5: a job whose first terminal status is `error` makes the poll loop
abort with a message carrying the service-reported error text; the submit
handler then stops with the store untouched; and, in general, every aborted
submission (upload failure, job-request failure, poll error, or unknown
template) leaves the report store exactly as it was. -/
theorem C5_error_aborts :
    (∀ (pre rest : List PollResponse) (r : PollResponse),
        (∀ q ∈ pre, pollStep q = none) → r.status = "error" →
        pollList (pre ++ r :: rest) =
          some (Except.error ("Transcription error: " ++ r.error))) ∧
    (∀ (inp : SubmitInput) (cache : List (String × String))
        (store : Option (List Report)) (m : String),
        lookupCache cache inp.filename = none →
        (∃ u, inp.uploadResult = Except.ok u) →
        (∃ j, inp.requestResult = Except.ok j) →
        pollList inp.pollResponses = some (Except.error m) →
        runSubmit inp cache store = some
          { cache := cache, store := store
            remoteCalls := [RemoteCall.upload, RemoteCall.jobRequest,
              RemoteCall.pollQuery]
            result := Except.error m }) ∧
    (∀ (inp : SubmitInput) (cache : List (String × String))
        (store : Option (List Report)) (o : SubmitOutcome) (m : String),
        runSubmit inp cache store = some o → o.result = Except.error m →
        o.store = store) := by
  refine ⟨?_, ?_, ?_⟩
  · intro pre
    induction pre with
    | nil =>
      intro rest r hpre hr
      simp only [List.nil_append, pollList]
      have hstep : pollStep r =
          some (Except.error ("Transcription error: " ++ r.error)) := by
        simp [pollStep, hr]
      rw [hstep]
    | cons q qs ih =>
      intro rest r hpre hr
      simp only [List.cons_append, pollList]
      rw [hpre q (List.mem_cons_self q qs)]
      exact ih rest r (fun x hx => hpre x (List.mem_cons_of_mem q hx)) hr
  · intro inp cache store m hl hu hj hpoll
    obtain ⟨u, hu⟩ := hu
    obtain ⟨j, hj⟩ := hj
    simp only [runSubmit, hl, hu, hj, hpoll]
  · intro inp cache store o m hrun hres
    cases hl : lookupCache cache inp.filename with
    | some t =>
      simp only [runSubmit, hl, Option.some.injEq] at hrun
      subst hrun
      exact finishSubmit_store_of_error _ _ _ _ _ m hres
    | none =>
      cases hu : inp.uploadResult with
      | error e =>
        simp only [runSubmit, hl, hu, Option.some.injEq] at hrun
        subst hrun
        rfl
      | ok u =>
        cases hj : inp.requestResult with
        | error e =>
          simp only [runSubmit, hl, hu, hj, Option.some.injEq] at hrun
          subst hrun
          rfl
        | ok j =>
          cases hp : pollList inp.pollResponses with
          | none =>
            simp only [runSubmit, hl, hu, hj, hp] at hrun
            exact Option.noConfusion hrun
          | some res =>
            cases res with
            | error e =>
              simp only [runSubmit, hl, hu, hj, hp, Option.some.injEq] at hrun
              subst hrun
              rfl
            | ok t =>
              simp only [runSubmit, hl, hu, hj, hp, Option.some.injEq] at hrun
              subst hrun
              exact finishSubmit_store_of_error _ _ _ _ _ m hres

/-- C5, witness: with the only poll response an `error` carrying
`corrupt file`, the poll loop aborts with that message and the submit
handler stops leaving the (absent) store untouched. -/
theorem C5_error_aborts_witness :
    pollList [{ status := "error", utterances := none
                error := "corrupt file" }] =
      some (Except.error ("Transcription error: " ++ "corrupt file")) ∧
    runSubmit wInp5 [] none = some
      { cache := [], store := none
        remoteCalls := [RemoteCall.upload, RemoteCall.jobRequest,
          RemoteCall.pollQuery]
        result := Except.error ("Transcription error: " ++ "corrupt file") } :=
  have hA := C5_error_aborts.1 [] []
    { status := "error", utterances := none, error := "corrupt file" }
    (fun q hq => absurd hq (List.not_mem_nil q)) rfl
  ⟨hA, C5_error_aborts.2.1 wInp5 [] none
    ("Transcription error: " ++ "corrupt file") rfl ⟨"u", rfl⟩ ⟨"j", rfl⟩ hA⟩

/-- C4: a non-zero exit of the local model runner is not raised to the
caller: the returned analysis is a string containing the stderr text, and
the submit handler still records exactly one new report row whose analysis
is that string. -/
theorem C4_ollama_failure :
    (∀ stderr : String, ∃ a b,
        analyze_with_ollama (OllamaOutcome.failure stderr) =
          a ++ stderr ++ b) ∧
    (∀ (inp : SubmitInput) (cache : List (String × String))
        (store : Option (List Report)) (t stderr : String),
        lookupCache cache inp.filename = some t →
        inp.analysis_type ∈ analysisTypeOptions →
        (∀ p, inp.ollama p = OllamaOutcome.failure stderr) →
        ∃ o : SubmitOutcome, runSubmit inp cache store = some o ∧
          o.result = Except.ok (t, "Error calling Ollama: " ++ stderr) ∧
          ∃ r : Report, o.store = some (store.getD [] ++ [r]) ∧
            r.analysis = "Error calling Ollama: " ++ stderr) := by
  constructor
  · intro stderr
    refine ⟨"Error calling Ollama: ", "", ?_⟩
    simp [analyze_with_ollama]
  · intro inp cache store t stderr hl hmem hfail
    obtain ⟨b, hb⟩ :=
      selectBasePrompt_isSome_of_mem inp.analysis_type inp.custom_prompt hmem
    refine ⟨finishSubmit inp cache [] store t, ?_, ?_, ?_⟩
    · simp [runSubmit, hl]
    · simp [finishSubmit, hb, hfail, analyze_with_ollama]
    · refine ⟨mkReport inp t
        (analyze_with_ollama (inp.ollama (formatted_prompt t b))) b, ?_, ?_⟩
      · simp [finishSubmit, hb, save_report_to_csv]
      · simp [mkReport, hfail, analyze_with_ollama]

/-- C4, witness: a cached submission whose model runner always fails with
stderr `model not found` still completes and records a row whose analysis
carries that text. -/
theorem C4_ollama_failure_witness :
    ∃ o : SubmitOutcome, runSubmit wInp4 wCache none = some o ∧
      o.result = Except.ok ("T", "Error calling Ollama: " ++ "model not found") ∧
      ∃ r : Report,
        o.store = some ((none : Option (List Report)).getD [] ++ [r]) ∧
        r.analysis = "Error calling Ollama: " ++ "model not found" :=
  C4_ollama_failure.2 wInp4 wCache none ("T") ("model not found")
    rfl (by decide) (fun _ => rfl)

/-- C8: a submission whose filename is already cached uses the cached
transcript, makes no remote call, and leaves the cache unchanged; and no
submission ever removes an entry from the cache. -/
theorem C8_session_cache :
    (∀ (inp : SubmitInput) (cache : List (String × String))
        (store : Option (List Report)) (t : String),
        lookupCache cache inp.filename = some t →
        inp.analysis_type ∈ analysisTypeOptions →
        ∃ o : SubmitOutcome, runSubmit inp cache store = some o ∧
          o.remoteCalls = [] ∧ o.cache = cache ∧
          (∃ a, o.result = Except.ok (t, a)) ∧
          ∃ r : Report, o.store = some (store.getD [] ++ [r]) ∧
            r.transcript = t) ∧
    (∀ (inp : SubmitInput) (cache : List (String × String))
        (store : Option (List Report)) (o : SubmitOutcome),
        runSubmit inp cache store = some o →
        ∀ p ∈ cache, p ∈ o.cache) := by
  constructor
  · intro inp cache store t hl hmem
    obtain ⟨b, hb⟩ :=
      selectBasePrompt_isSome_of_mem inp.analysis_type inp.custom_prompt hmem
    refine ⟨finishSubmit inp cache [] store t, ?_, ?_, ?_, ?_, ?_⟩
    · simp [runSubmit, hl]
    · simp [finishSubmit, hb]
    · exact finishSubmit_cache inp cache [] store t
    · exact ⟨analyze_with_ollama (inp.ollama (formatted_prompt t b)),
        by simp [finishSubmit, hb]⟩
    · exact ⟨mkReport inp t
        (analyze_with_ollama (inp.ollama (formatted_prompt t b))) b,
        by simp [finishSubmit, hb, save_report_to_csv], rfl⟩
  · intro inp cache store o hrun p hp
    cases hl : lookupCache cache inp.filename with
    | some t =>
      simp only [runSubmit, hl, Option.some.injEq] at hrun
      subst hrun
      rw [finishSubmit_cache]
      exact hp
    | none =>
      cases hu : inp.uploadResult with
      | error e =>
        simp only [runSubmit, hl, hu, Option.some.injEq] at hrun
        subst hrun
        exact hp
      | ok u =>
        cases hj : inp.requestResult with
        | error e =>
          simp only [runSubmit, hl, hu, hj, Option.some.injEq] at hrun
          subst hrun
          exact hp
        | ok j =>
          cases hpoll : pollList inp.pollResponses with
          | none =>
            simp only [runSubmit, hl, hu, hj, hpoll] at hrun
            exact Option.noConfusion hrun
          | some res =>
            cases res with
            | error e =>
              simp only [runSubmit, hl, hu, hj, hpoll,
                Option.some.injEq] at hrun
              subst hrun
              exact hp
            | ok t =>
              simp only [runSubmit, hl, hu, hj, hpoll,
                Option.some.injEq] at hrun
              subst hrun
              rw [finishSubmit_cache]
              exact List.mem_append_left _ hp

/-- C8, witness: a concretely cached submission completes with no remote
call, the cache unchanged, and one new row. -/
theorem C8_session_cache_witness :
    ∃ o : SubmitOutcome, runSubmit wInp8 wCache8 none = some o ∧
      o.remoteCalls = [] ∧ o.cache = wCache8 ∧
      (∃ a, o.result = Except.ok ("S", a)) ∧
      ∃ r : Report,
        o.store = some ((none : Option (List Report)).getD [] ++ [r]) ∧
        r.transcript = "S" :=
  C8_session_cache.1 wInp8 wCache8 none ("S") rfl (by decide)

/-- C10: a `completed` response with no utterances field (or an empty
utterance list) makes the poll loop return the empty transcript rather
than fail, and the submit handler still runs the analysis and records a
row whose transcript is empty. -/
theorem C10_empty_utterances :
    (∀ r : PollResponse, r.status = "completed" →
        (r.utterances = none ∨ r.utterances = some []) →
        pollStep r = some (Except.ok (""))) ∧
    (∀ (inp : SubmitInput) (cache : List (String × String))
        (store : Option (List Report)) (r : PollResponse),
        lookupCache cache inp.filename = none →
        (∃ u, inp.uploadResult = Except.ok u) →
        (∃ j, inp.requestResult = Except.ok j) →
        inp.pollResponses = [r] → r.status = "completed" →
        r.utterances = none →
        inp.analysis_type ∈ analysisTypeOptions →
        ∃ o : SubmitOutcome, runSubmit inp cache store = some o ∧
          (∃ a, o.result = Except.ok ("", a)) ∧
          ∃ rep : Report, o.store = some (store.getD [] ++ [rep]) ∧
            rep.transcript = "") := by
  constructor
  · intro r h1 h2
    rcases h2 with h2 | h2 <;> simp [pollStep, h1, h2, buildDialogueApp]
  · intro inp cache store r hl hu hj hpr hst hut hmem
    obtain ⟨u, hu⟩ := hu
    obtain ⟨j, hj⟩ := hj
    obtain ⟨b, hb⟩ :=
      selectBasePrompt_isSome_of_mem inp.analysis_type inp.custom_prompt hmem
    have hpoll : pollList inp.pollResponses = some (Except.ok ("")) := by
      rw [hpr]
      simp [pollList, pollStep, hst, hut, buildDialogueApp]
    refine ⟨finishSubmit inp (cache ++ [(inp.filename, "")])
      [RemoteCall.upload, RemoteCall.jobRequest, RemoteCall.pollQuery]
      store (""), ?_, ?_, ?_⟩
    · simp [runSubmit, hl, hu, hj, hpoll]
    · exact ⟨analyze_with_ollama (inp.ollama (formatted_prompt ("") b)),
        by simp [finishSubmit, hb]⟩
    · exact ⟨mkReport inp ("")
        (analyze_with_ollama (inp.ollama (formatted_prompt ("") b))) b,
        by simp [finishSubmit, hb, save_report_to_csv], rfl⟩

/-- C10, witness: the concrete completed-response environment with no
utterances field yields the empty transcript and one recorded row. -/
theorem C10_empty_utterances_witness :
    pollStep { status := "completed", utterances := none, error := "" } =
      some (Except.ok ("")) ∧
    ∃ o : SubmitOutcome, runSubmit wInp10 [] none = some o ∧
      (∃ a, o.result = Except.ok ("", a)) ∧
      ∃ rep : Report,
        o.store = some ((none : Option (List Report)).getD [] ++ [rep]) ∧
        rep.transcript = "" :=
  ⟨C10_empty_utterances.1
      { status := "completed", utterances := none, error := "" } rfl
      (Or.inl rfl),
   C10_empty_utterances.2 wInp10 [] none
      { status := "completed", utterances := none, error := "" }
      rfl ⟨"u", rfl⟩ ⟨"j", rfl⟩ rfl rfl rfl (by decide)⟩
